import Mathlib

/-!
Shallow embedding of the Chatterbox chat relay core:
`app/connection_manager.py` (membership list and broadcast sweep),
`app/database.py` (`get_last_messages`), and the websocket handler of
`app/main.py` (auth gate, history push, per-frame validation, persistence,
broadcast, teardown).  Machine state that the Python code keeps in process
globals (the `ConnectionManager` instance, the `sessions` dict, the
`messages` table) is passed explicitly; the environment (send failures,
database availability, the wall clock) enters as explicit parameters.
-/

/-- Connection handles: opaque identifiers for one websocket each
(`WebSocket` objects in the source, compared by identity). -/
abbrev Handle := Nat

/-- State of `ConnectionManager` (`connection_manager.py`, line 5):
`self.active_connections = []`, a Python list, so ordered and allowing
duplicate entries. -/
structure ConnectionManager where
  active_connections : List Handle
  deriving Repr, DecidableEq

/-- `ConnectionManager.connect` (`connection_manager.py`, lines 7-9):
`self.active_connections.append(websocket)`, an unconditional list append. -/
def ConnectionManager.connect (m : ConnectionManager) (websocket : Handle) :
    ConnectionManager :=
  ⟨m.active_connections ++ [websocket]⟩

/-- `ConnectionManager.disconnect` (`connection_manager.py`, lines 11-15):
`if websocket in self.active_connections: self.active_connections.remove(websocket)`.
Python `list.remove` deletes the first occurrence only, which is `List.erase`. -/
def ConnectionManager.disconnect (m : ConnectionManager) (websocket : Handle) :
    ConnectionManager :=
  if websocket ∈ m.active_connections then ⟨m.active_connections.erase websocket⟩ else m

/-- The send loop inside `ConnectionManager.broadcast` (`connection_manager.py`,
lines 18-23): for each connection in list order, `await connection.send_text(message)`;
on exception the connection is appended to `dead`.  `sendOk` tells whether the
send capability of a handle succeeds during this broadcast.  Returns the list of
successful deliveries (handle paired with the payload it received, in sweep
order) and the `dead` list (in sweep order). -/
def sweep {α : Type} (sendOk : Handle → Bool) (payload : α) :
    List Handle → List (Handle × α) × List Handle
  | [] => ([], [])
  | c :: rest =>
    let r := sweep sendOk payload rest
    if sendOk c then ((c, payload) :: r.1, r.2) else (r.1, c :: r.2)

/-- The removal loop at the end of `ConnectionManager.broadcast`
(`connection_manager.py`, lines 26-28): `for d in dead: if d in
self.active_connections: self.active_connections.remove(d)`. -/
def removeAllDead : List Handle → List Handle → List Handle
  | conns, [] => conns
  | conns, d :: rest => removeAllDead (if d ∈ conns then conns.erase d else conns) rest

/-- `ConnectionManager.broadcast` (`connection_manager.py`, lines 17-28):
sweep over the membership list attempting each send, then drop every
connection whose send raised.  The payload type is abstract: the source
broadcasts an opaque string it never inspects. -/
def ConnectionManager.broadcast {α : Type} (m : ConnectionManager)
    (sendOk : Handle → Bool) (message : α) :
    ConnectionManager × List (Handle × α) :=
  let r := sweep sendOk message m.active_connections
  (⟨removeAllDead m.active_connections r.2⟩, r.1)

/-- Values produced by `json.loads` on a successfully parsed frame. -/
inductive Json where
  | null
  | bool (b : Bool)
  | num (n : Int)
  | str (s : String)
  | arr (elems : List Json)
  | obj (fields : List (String × Json))

/-- Lookup in a Python dict built from an association list by repeated
assignment: a later binding of the same key shadows an earlier one, matching
both `json.loads` object parsing and the `sessions` dict of `main.py`. -/
def dictGet {α : Type} : List (String × α) → String → Option α
  | [], _ => none
  | (k, v) :: rest, key =>
    match dictGet rest key with
    | some w => some w
    | none => if key = k then some v else none

/-- Python `str.strip()`: remove whitespace from both ends of the string. -/
def pyStrip (s : String) : String :=
  ⟨((s.data.dropWhile Char.isWhitespace).reverse.dropWhile Char.isWhitespace).reverse⟩

/-- One inbound websocket frame as received by `websocket.receive_text`:
either text that `json.loads` rejects (`JSONDecodeError`), or a parsed JSON
value. -/
inductive Frame where
  | invalid
  | parsed (j : Json)

/-- Result of the validation block of `main.py`, lines 166-197: either the
stripped content string, or the `detail` of the local error event sent back. -/
inductive Validated where
  | ok (content : String)
  | err (detail : String)
  deriving Repr, DecidableEq

/-- The emptiness and length checks of `main.py`, lines 168-182, applied to
the string value returned by `data.get("content", "")`:
`content = ....strip()`, `if not content`, `if len(content) > 5000`. -/
def stripCheck (s : String) : Validated :=
  let content := pyStrip s
  if content = "" then .err "Message cannot be empty"
  else if content.length > 5000 then .err "Message too long (max 5000 characters)"
  else .ok content

/-- The whole validation block of `main.py`, lines 166-197.
`json.loads` failure raises `JSONDecodeError` (line 184).  When the parsed
value is not a dict, `data.get` raises `AttributeError`, and when the
`content` value is not a string, `.strip()` raises; both land in the generic
`except Exception` (line 191).  Either way the event detail is
"Invalid message format".  A dict without a `content` key yields the default
`""`, which strips to empty. -/
def validateFrame : Frame → Validated
  | .invalid => .err "Invalid message format"
  | .parsed (.obj fields) =>
    match dictGet fields "content" with
    | none => stripCheck ""
    | some (.str s) => stripCheck s
    | some _ => .err "Invalid message format"
  | .parsed _ => .err "Invalid message format"

/-- One row of the `messages` table (`database.py`, lines 29-36). -/
structure ChatMessage where
  username : String
  content : String
  timestamp : String
  deriving Repr, DecidableEq

/-- Outbound events of the protocol (`main.py`): the `history` push on
admission, the broadcast `message` event, and local `error` events. -/
inductive Event where
  | history (messages : List ChatMessage)
  | message (username : String) (content : String) (timestamp : String)
  | error (detail : String)
  deriving Repr, DecidableEq

/-- `get_last_messages` (`database.py`, lines 43-65): `SELECT ... ORDER BY id
DESC LIMIT ?` over the insertion-ordered table takes the last `limit` rows
newest first, and `reversed(rows)` flips them back to oldest first.  The log
is modelled as the insertion-ordered list of rows. -/
def get_last_messages (log : List ChatMessage) (limit : Nat) : List ChatMessage :=
  ((log.reverse).take limit).reverse

/-- The mutable server state touched by the websocket handler: the shared
`ConnectionManager` and the `messages` table. -/
structure ServerState where
  manager : ConnectionManager
  log : List ChatMessage
  deriving Repr, DecidableEq

/-- Connection-loop control after one iteration: the `continue` paths stay in
the receive loop (Active); `WebSocketDisconnect` and unexpected receive
errors `break` out of it (Closing). -/
inductive ConnState where
  | Active
  | Closing
  deriving Repr, DecidableEq

/-- Effects of one iteration of the message loop: the updated server state,
the events sent directly to the originating connection only, the payload
handed to `broadcast` (if any), the successful broadcast deliveries, and
whether the loop continues. -/
structure StepResult where
  state : ServerState
  selfEvents : List Event
  broadcastPayload : Option Event
  delivered : List (Handle × Event)
  next : ConnState
  deriving Repr, DecidableEq

/-- The body of the message loop of `main.py`, lines 163-231, for one received
frame: validate (each failure sends one local error event and continues),
assign the server timestamp, insert into the `messages` table (`persistOk`
tells whether the insert and commit succeed; on failure send a local error
event and continue), then broadcast the `message` event to the membership. -/
def handleFrame (st : ServerState) (username : String) (frame : Frame)
    (timestamp : String) (persistOk : Bool) (sendOk : Handle → Bool) : StepResult :=
  match validateFrame frame with
  | .err detail => ⟨st, [.error detail], none, [], .Active⟩
  | .ok content =>
    if persistOk then
      let ev := Event.message username content timestamp
      let r := st.manager.broadcast sendOk ev
      ⟨⟨r.1, st.log ++ [⟨username, content, timestamp⟩]⟩, [], some ev, r.2, .Active⟩
    else
      ⟨st, [.error "Failed to save message"], none, [], .Active⟩

/-- One item obtained from `websocket.receive_text` inside the loop: a frame
(with the environment inputs of that iteration: the clock value, database
availability, and the send outcomes during the broadcast), a
`WebSocketDisconnect`, or an unexpected receive error. -/
inductive InEvent where
  | frame (f : Frame) (timestamp : String) (persistOk : Bool) (sendOk : Handle → Bool)
  | disconnect
  | recvError

/-- One iteration of the `while True` receive loop (`main.py`, lines 161-238):
a received frame is handled by the validation/persist/broadcast body and the
loop continues; `WebSocketDisconnect` and unexpected errors `break`. -/
def loopStep (st : ServerState) (username : String) : InEvent → StepResult
  | .frame f ts persistOk sendOk => handleFrame st username f ts persistOk sendOk
  | .disconnect => ⟨st, [], none, [], .Closing⟩
  | .recvError => ⟨st, [], none, [], .Closing⟩

/-- Accumulated effects of running the receive loop to completion. -/
structure LoopResult where
  state : ServerState
  selfEvents : List Event
  delivered : List (Handle × Event)
  deriving Repr, DecidableEq

/-- The receive loop (`main.py`, lines 161-238) over the sequence of received
items: iterate `loopStep` until an iteration breaks (or the connection
produces no further items). -/
def runLoop (username : String) : ServerState → List InEvent → LoopResult
  | st, [] => ⟨st, [], []⟩
  | st, ev :: rest =>
    let s := loopStep st username ev
    match s.next with
    | .Closing => ⟨s.state, s.selfEvents, s.delivered⟩
    | .Active =>
      let r := runLoop username s.state rest
      ⟨r.state, s.selfEvents ++ r.selfEvents, s.delivered ++ r.delivered⟩

/-- Outcome of one call of the websocket endpoint: final server state, the
close code when the connection was refused before admission, the events sent
directly to this connection (history push and local errors), and the
broadcast deliveries performed while this connection drove the loop. -/
structure EndpointResult where
  finalState : ServerState
  closeCode : Option Nat
  selfEvents : List Event
  delivered : List (Handle × Event)
  deriving Repr, DecidableEq

/-- `websocket_endpoint` (`main.py`, lines 129-246).  The auth gate (lines
137-140) closes with code 1008 and returns when the token is not a key of
`sessions`, before `accept`, before `manager.connect`, and before any event
is sent.  Otherwise the handle is connected, the history push is attempted
(its failure is caught and non-fatal, modelled by `historyPushOk`), the
receive loop runs, and the `finally` block (lines 244-246) calls
`manager.disconnect` on every such path. -/
def websocket_endpoint (sessions : List (String × String)) (st : ServerState)
    (token : String) (ws : Handle) (historyPushOk : Bool)
    (events : List InEvent) : EndpointResult :=
  match dictGet sessions token with
  | none => ⟨st, some 1008, [], []⟩
  | some username =>
    let st1 : ServerState := ⟨st.manager.connect ws, st.log⟩
    let histEvents :=
      if historyPushOk then [Event.history (get_last_messages st1.log 50)] else []
    let r := runLoop username st1 events
    ⟨⟨r.state.manager.disconnect ws, r.state.log⟩, none,
      histEvents ++ r.selfEvents, r.delivered⟩

/-! ## Lemmas about the broadcast sweep -/

/-- The successful deliveries of a sweep are exactly the handles whose send
succeeds, in list order, each paired with the broadcast payload. -/
lemma sweep_delivered {α : Type} (sendOk : Handle → Bool) (payload : α)
    (conns : List Handle) :
    (sweep sendOk payload conns).1
      = (conns.filter sendOk).map (fun c => (c, payload)) := by
  induction conns with
  | nil => rfl
  | cons c rest ih =>
    by_cases h : sendOk c <;> simp [sweep, List.filter_cons, h, ih]

/-- The dead list of a sweep holds exactly the handles whose send fails, in
list order. -/
lemma sweep_dead {α : Type} (sendOk : Handle → Bool) (payload : α)
    (conns : List Handle) :
    (sweep sendOk payload conns).2 = conns.filter (fun c => !sendOk c) := by
  induction conns with
  | nil => rfl
  | cons c rest ih =>
    by_cases h : sendOk c <;> simp [sweep, List.filter_cons, h, ih]

/-- Occurrence count after the removal loop: each entry of `dead` deletes one
matching occurrence when one is present. -/
lemma count_removeAllDead (h : Handle) (dead conns : List Handle) :
    List.count h (removeAllDead conns dead)
      = List.count h conns - List.count h dead := by
  induction dead generalizing conns with
  | nil => simp [removeAllDead]
  | cons d rest ih =>
    show List.count h (removeAllDead (if d ∈ conns then conns.erase d else conns) rest)
        = List.count h conns - List.count h (d :: rest)
    rw [ih, List.count_cons]
    by_cases hdc : d ∈ conns
    · rw [if_pos hdc, List.count_erase]
      by_cases hdh : d = h
      · subst hdh
        have h1 : 1 ≤ List.count d conns := List.one_le_count_iff.mpr hdc
        simp only [beq_self_eq_true, if_true]
        omega
      · have hb : (d == h) = false := by simp [hdh]
        simp [hb]
    · rw [if_neg hdc]
      by_cases hdh : d = h
      · subst hdh
        have h0 : List.count d conns = 0 := List.count_eq_zero.mpr hdc
        simp [h0]
      · have hb : (d == h) = false := by simp [hdh]
        simp [hb]

/-- Occurrence count of the membership list after a broadcast. -/
lemma count_broadcast {α : Type} (m : ConnectionManager) (sendOk : Handle → Bool)
    (payload : α) (h : Handle) :
    List.count h (m.broadcast sendOk payload).1.active_connections
      = List.count h m.active_connections
        - List.count h (m.active_connections.filter (fun c => !sendOk c)) := by
  simp [ConnectionManager.broadcast, sweep_dead, count_removeAllDead]

/-- A broadcast never adds occurrences to the membership list. -/
lemma count_broadcast_le {α : Type} (m : ConnectionManager) (sendOk : Handle → Bool)
    (payload : α) (h : Handle) :
    List.count h (m.broadcast sendOk payload).1.active_connections
      ≤ List.count h m.active_connections := by
  rw [count_broadcast]
  exact Nat.sub_le _ _

/-- Every member whose send succeeds receives the broadcast payload. -/
lemma mem_broadcast_delivered {α : Type} (m : ConnectionManager)
    (sendOk : Handle → Bool) (payload : α) (h : Handle)
    (hmem : h ∈ m.active_connections) (hok : sendOk h = true) :
    (h, payload) ∈ (m.broadcast sendOk payload).2 := by
  have : (m.broadcast sendOk payload).2
      = (m.active_connections.filter sendOk).map (fun c => (c, payload)) := by
    simp [ConnectionManager.broadcast, sweep_delivered]
  rw [this]
  exact List.mem_map.mpr ⟨h, List.mem_filter.mpr ⟨hmem, hok⟩, rfl⟩

/-- A member whose send fails is absent from the membership list immediately
after the broadcast. -/
lemma not_mem_after_broadcast {α : Type} (m : ConnectionManager)
    (sendOk : Handle → Bool) (payload : α) (h : Handle)
    (hfail : sendOk h = false) :
    h ∉ (m.broadcast sendOk payload).1.active_connections := by
  have hcnt : List.count h (m.broadcast sendOk payload).1.active_connections = 0 := by
    rw [count_broadcast]
    have : List.count h (m.active_connections.filter (fun c => !sendOk c))
        = List.count h m.active_connections :=
      List.count_filter (by simp [hfail])
    omega
  exact List.not_mem_of_count_eq_zero hcnt

/-- C1: broadcast attempts delivery of the given payload to every handle in
the membership list independently.  A handle whose send succeeds receives
exactly the broadcast payload regardless of the send outcomes of all other
handles (the send-outcome function is arbitrary), and every handle whose send
fails is removed by the post-sweep cleanup, hence is absent from the
membership list immediately after `broadcast` returns. -/
theorem broadcast_independent_delivery_and_eviction {α : Type}
    (m : ConnectionManager) (sendOk : Handle → Bool) (payload : α) (h : Handle)
    (hmem : h ∈ m.active_connections) :
    (sendOk h = true → (h, payload) ∈ (m.broadcast sendOk payload).2) ∧
    (sendOk h = false → h ∉ (m.broadcast sendOk payload).1.active_connections) :=
  ⟨fun hok => mem_broadcast_delivered m sendOk payload h hmem hok,
   fun hfail => not_mem_after_broadcast m sendOk payload h hfail⟩

/-- Witness for C1 at a concrete membership list `[1, 2, 3]` where the send to
handle 2 fails: handle 1 still receives the payload and handle 2 is gone. -/
theorem broadcast_independent_delivery_and_eviction_witness :
    ((1, "payload") ∈ (ConnectionManager.broadcast ⟨[1, 2, 3]⟩ (fun c => c != 2) "payload").2) ∧
    (2 ∉ (ConnectionManager.broadcast ⟨[1, 2, 3]⟩ (fun c => c != 2) "payload").1.active_connections) :=
  ⟨(broadcast_independent_delivery_and_eviction ⟨[1, 2, 3]⟩ (fun c => c != 2)
      "payload" 1 (by decide)).1 (by decide),
   (broadcast_independent_delivery_and_eviction ⟨[1, 2, 3]⟩ (fun c => c != 2)
      "payload" 2 (by decide)).2 (by decide)⟩

/-- C2 counterexample: re-admitting a handle already in the membership list is
not a no-op — `connect` appends unconditionally, so the list `[7]` becomes
`[7, 7]`, a duplicate entry, refuting idempotence of `admit` and the no-
duplicates property of the membership collection. -/
theorem connect_readmission_creates_duplicate :
    (ConnectionManager.connect ⟨[7]⟩ 7 ≠ ⟨[7]⟩) ∧
    (ConnectionManager.connect ⟨[7]⟩ 7).active_connections = [7, 7] ∧
    ¬ (ConnectionManager.connect ⟨[7]⟩ 7).active_connections.Nodup := by
  refine ⟨by decide, by decide, by decide⟩

/-- C2 amended: `connect` is not idempotent.  It always appends exactly one
new occurrence of the handle to the end of the membership list, so
re-admitting an already-present handle produces a duplicate entry.
`disconnect` removes at most one occurrence: it is a no-op on an absent
handle, and on a present handle it decreases that handle's occurrence count
by exactly one. -/
theorem connect_appends_one_occurrence (m : ConnectionManager) (ws : Handle) :
    (m.connect ws).active_connections = m.active_connections ++ [ws] ∧
    List.count ws (m.connect ws).active_connections
      = List.count ws m.active_connections + 1 ∧
    (ws ∉ m.active_connections → m.disconnect ws = m) ∧
    (ws ∈ m.active_connections →
      List.count ws (m.disconnect ws).active_connections
        = List.count ws m.active_connections - 1) := by
  refine ⟨rfl, ?_, ?_, ?_⟩
  · simp [ConnectionManager.connect]
  · intro habs
    simp [ConnectionManager.disconnect, habs]
  · intro hmem
    simp [ConnectionManager.disconnect, hmem, List.count_erase_self]

/-- Witness for C2 amended: evaluates both `disconnect` branches at concrete
inputs, a membership list not containing the handle and one containing it. -/
theorem connect_appends_one_occurrence_witness :
    ((⟨[7]⟩ : ConnectionManager).disconnect 9 = ⟨[7]⟩) ∧
    (List.count 7 ((⟨[7, 7]⟩ : ConnectionManager).disconnect 7).active_connections
      = List.count 7 [7, 7] - 1) :=
  ⟨(connect_appends_one_occurrence ⟨[7]⟩ 9).2.2.1 (by decide),
   (connect_appends_one_occurrence ⟨[7, 7]⟩ 7).2.2.2 (by decide)⟩

/-- Counting pairs produced by pairing each handle with a fixed payload. -/
lemma count_pair_map {α : Type} [DecidableEq α] (payload : α) (h : Handle)
    (l : List Handle) :
    List.count (h, payload) (l.map (fun c => (c, payload))) = List.count h l := by
  induction l with
  | nil => rfl
  | cons c rest ih =>
    simp only [List.map_cons, List.count_cons, ih]
    by_cases hch : c = h <;> simp [hch]

/-- C10: membership is a list, so a handle connected twice occurs twice, every
broadcast whose send to it succeeds delivers the payload to it once per
occurrence (here twice), a single `disconnect` removes only the first
occurrence, after which the handle is still a member and still receives
broadcasts, and `disconnect` of a handle not in the list leaves the manager
unchanged. -/
theorem duplicate_connection_counts {α : Type} [DecidableEq α]
    (m : ConnectionManager) (h g : Handle) (sendOk : Handle → Bool) (payload : α)
    (hcnt : List.count h m.active_connections = 2) (hok : sendOk h = true)
    (habs : g ∉ m.active_connections) :
    List.count (h, payload) (m.broadcast sendOk payload).2 = 2 ∧
    List.count h (m.disconnect h).active_connections = 1 ∧
    h ∈ (m.disconnect h).active_connections ∧
    (h, payload) ∈ ((m.disconnect h).broadcast sendOk payload).2 ∧
    m.disconnect g = m := by
  have hdel : (m.broadcast sendOk payload).2
      = (m.active_connections.filter sendOk).map (fun c => (c, payload)) := by
    simp [ConnectionManager.broadcast, sweep_delivered]
  have hmem : h ∈ m.active_connections := by
    have : 0 < List.count h m.active_connections := by omega
    exact List.count_pos_iff.mp this
  have hdc : List.count h (m.disconnect h).active_connections = 1 := by
    simp [ConnectionManager.disconnect, hmem, List.count_erase_self, hcnt]
  have hdm : h ∈ (m.disconnect h).active_connections := by
    have : 0 < List.count h (m.disconnect h).active_connections := by omega
    exact List.count_pos_iff.mp this
  refine ⟨?_, hdc, hdm, ?_, ?_⟩
  · rw [hdel, count_pair_map, List.count_filter hok, hcnt]
  · exact mem_broadcast_delivered _ sendOk payload h hdm hok
  · simp [ConnectionManager.disconnect, habs]

/-- Witness for C10 at the concrete membership list `[5, 8, 5]` holding
handle 5 twice, with all sends succeeding and absent handle 9. -/
theorem duplicate_connection_counts_witness :
    List.count (5, "m") ((ConnectionManager.broadcast ⟨[5, 8, 5]⟩ (fun _ => true) "m").2) = 2 ∧
    List.count 5 ((⟨[5, 8, 5]⟩ : ConnectionManager).disconnect 5).active_connections = 1 ∧
    5 ∈ ((⟨[5, 8, 5]⟩ : ConnectionManager).disconnect 5).active_connections ∧
    (5, "m") ∈ (((⟨[5, 8, 5]⟩ : ConnectionManager).disconnect 5).broadcast (fun _ => true) "m").2 ∧
    (⟨[5, 8, 5]⟩ : ConnectionManager).disconnect 9 = ⟨[5, 8, 5]⟩ :=
  duplicate_connection_counts ⟨[5, 8, 5]⟩ 5 9 (fun _ => true) "m"
    (by decide) (by decide) (by decide)

/-! ## Lemmas about frame validation -/

/-- Content that strips to the empty string is rejected as empty. -/
lemma stripCheck_empty {s : String} (h : pyStrip s = "") :
    stripCheck s = .err "Message cannot be empty" := by
  simp [stripCheck, h]

/-- Content whose stripped form exceeds 5000 characters is rejected as too
long. -/
lemma stripCheck_too_long {s : String} (h : (pyStrip s).length > 5000) :
    stripCheck s = .err "Message too long (max 5000 characters)" := by
  have hne : ¬ pyStrip s = "" := by
    intro he
    rw [he] at h
    simp at h
  simp [stripCheck, hne, h]

/-- Content whose stripped form is nonempty and within the limit passes
validation with exactly its stripped form. -/
lemma stripCheck_ok {s : String} (hne : pyStrip s ≠ "")
    (hlen : (pyStrip s).length ≤ 5000) :
    stripCheck s = .ok (pyStrip s) := by
  have h2 : ¬ (pyStrip s).length > 5000 := by omega
  simp [stripCheck, hne, h2]

/-- A parsed object whose `content` value is the string `s` validates exactly
as `stripCheck s`. -/
lemma validateFrame_obj_str {fields : List (String × Json)} {s : String}
    (hfield : dictGet fields "content" = some (.str s)) :
    validateFrame (.parsed (.obj fields)) = stripCheck s := by
  simp [validateFrame, hfield]

/-- A string of `n` letters has no surrounding whitespace to strip. -/
lemma dropWhile_ws_replicate (n : Nat) :
    List.dropWhile Char.isWhitespace (List.replicate n 'a') = List.replicate n 'a' := by
  cases n with
  | zero => rfl
  | succ m =>
    rw [List.replicate_succ, List.dropWhile_cons]
    have h : Char.isWhitespace 'a' = false := by decide
    simp [h]

/-- A concrete all-letter string of the given length, used to witness the
length-boundary claims. -/
def onlyA (n : Nat) : String := ⟨List.replicate n 'a'⟩

/-- Stripping an all-letter string changes nothing. -/
lemma pyStrip_onlyA (n : Nat) : pyStrip (onlyA n) = onlyA n := by
  simp [pyStrip, onlyA, dropWhile_ws_replicate, List.reverse_replicate]

/-- Length of the all-letter string. -/
lemma length_onlyA (n : Nat) : (onlyA n).length = n := by
  simp [onlyA, String.length]

/-- C3: persistence is a precondition for broadcast.  When a frame passes
validation but the `MessageLog` append fails, the handler sends the local
error event "Failed to save message" to the originating connection only,
broadcasts nothing and delivers to no member, leaves the membership list and
the message log unchanged, and the connection stays in the Active receive
loop. -/
theorem persist_failure_drops_message (st : ServerState) (username : String)
    (frame : Frame) (ts : String) (sendOk : Handle → Bool) (content : String)
    (hval : validateFrame frame = .ok content) :
    loopStep st username (.frame frame ts false sendOk)
      = ⟨st, [.error "Failed to save message"], none, [], .Active⟩ := by
  simp [loopStep, handleFrame, hval]

/-- Witness for C3: a valid frame whose persistence fails, at a concrete
state with two members. -/
theorem persist_failure_drops_message_witness :
    loopStep ⟨⟨[4, 5]⟩, []⟩ "alice"
        (.frame (.parsed (.obj [("content", .str "hi")])) "2024-01-01T00:00:00" false
          (fun _ => true))
      = ⟨⟨⟨[4, 5]⟩, []⟩, [.error "Failed to save message"], none, [], .Active⟩ :=
  persist_failure_drops_message ⟨⟨[4, 5]⟩, []⟩ "alice" _ "2024-01-01T00:00:00"
    (fun _ => true) "hi" rfl

/-- C5: a frame whose content strips to the empty string is answered with the
local error event "Message cannot be empty", and a frame whose stripped
content exceeds 5000 characters with "Message too long (max 5000
characters)"; in both cases the event goes to the originating connection
only, nothing is broadcast or delivered, the message log is unchanged (so no
later history response can contain the message), and the connection stays
Active. -/
theorem empty_or_oversized_content_rejected (st : ServerState) (username : String)
    (fields : List (String × Json)) (s : String) (ts : String) (persistOk : Bool)
    (sendOk : Handle → Bool)
    (hfield : dictGet fields "content" = some (.str s)) :
    (pyStrip s = "" →
      loopStep st username (.frame (.parsed (.obj fields)) ts persistOk sendOk)
        = ⟨st, [.error "Message cannot be empty"], none, [], .Active⟩) ∧
    ((pyStrip s).length > 5000 →
      loopStep st username (.frame (.parsed (.obj fields)) ts persistOk sendOk)
        = ⟨st, [.error "Message too long (max 5000 characters)"], none, [], .Active⟩) := by
  constructor
  · intro hempty
    simp [loopStep, handleFrame, validateFrame_obj_str hfield, stripCheck_empty hempty]
  · intro hlong
    simp [loopStep, handleFrame, validateFrame_obj_str hfield, stripCheck_too_long hlong]

/-- Witness for C5: whitespace-only content of length 2, and all-letter
content of length 5001, both at a concrete state with one member. -/
theorem empty_or_oversized_content_rejected_witness :
    (loopStep ⟨⟨[3]⟩, []⟩ "alice"
        (.frame (.parsed (.obj [("content", .str "  ")])) "t" true (fun _ => true))
      = ⟨⟨⟨[3]⟩, []⟩, [.error "Message cannot be empty"], none, [], .Active⟩) ∧
    (loopStep ⟨⟨[3]⟩, []⟩ "alice"
        (.frame (.parsed (.obj [("content", .str (onlyA 5001))])) "t" true (fun _ => true))
      = ⟨⟨⟨[3]⟩, []⟩, [.error "Message too long (max 5000 characters)"], none, [], .Active⟩) :=
  ⟨(empty_or_oversized_content_rejected ⟨⟨[3]⟩, []⟩ "alice" [("content", .str "  ")]
      "  " "t" true (fun _ => true) rfl).1 (by decide),
   (empty_or_oversized_content_rejected ⟨⟨[3]⟩, []⟩ "alice"
      [("content", .str (onlyA 5001))] (onlyA 5001) "t" true (fun _ => true) rfl).2
      (by rw [pyStrip_onlyA, length_onlyA]; omega)⟩

/-- Frames that take the generic exception paths of the validation block
(`main.py`, lines 184-197): text `json.loads` rejects, parsed JSON whose top
level is not an object (so `data.get` raises), and objects whose `content`
value is a non-string (so `.strip()` raises). -/
def frameShapeInvalid : Frame → Bool
  | .invalid => true
  | .parsed (.obj fields) =>
    match dictGet fields "content" with
    | some (.str _) => false
    | some _ => true
    | none => false
  | .parsed _ => true

/-- C6 counterexample: the frame `{"user": "bob"}` is valid JSON of a
different shape (an object missing the `content` field), yet the handler
answers "Message cannot be empty", not "Invalid message format", because
`data.get("content", "")` substitutes the empty string. -/
theorem object_missing_content_not_invalid_format :
    (loopStep ⟨⟨[]⟩, []⟩ "alice"
        (.frame (.parsed (.obj [("user", .str "bob")])) "t" true (fun _ => true))).selfEvents
      = [.error "Message cannot be empty"] ∧
    (loopStep ⟨⟨[]⟩, []⟩ "alice"
        (.frame (.parsed (.obj [("user", .str "bob")])) "t" true (fun _ => true))).selfEvents
      ≠ [.error "Invalid message format"] := by
  refine ⟨rfl, by decide⟩

/-- C6 amended: a frame that is unparseable, parses to a non-object, or
parses to an object whose `content` value is not a string is answered with
the local error event "Invalid message format" — sent to the originating
connection only, nothing broadcast or delivered, state unchanged, connection
still Active.  A parsed object missing the `content` field is instead treated
as empty content and answered with "Message cannot be empty" (same locality,
no broadcast, state unchanged, still Active). -/
theorem malformed_frame_local_error (st : ServerState) (username : String)
    (ts : String) (persistOk : Bool) (sendOk : Handle → Bool) :
    (∀ frame, frameShapeInvalid frame = true →
      loopStep st username (.frame frame ts persistOk sendOk)
        = ⟨st, [.error "Invalid message format"], none, [], .Active⟩) ∧
    (∀ fields, dictGet fields "content" = none →
      loopStep st username (.frame (.parsed (.obj fields)) ts persistOk sendOk)
        = ⟨st, [.error "Message cannot be empty"], none, [], .Active⟩) := by
  constructor
  · intro frame hbad
    match frame with
    | .invalid => simp [loopStep, handleFrame, validateFrame]
    | .parsed (.obj fields) =>
      cases hdg : dictGet fields "content" with
      | none => simp [frameShapeInvalid, hdg] at hbad
      | some v =>
        cases v with
        | str s => simp [frameShapeInvalid, hdg] at hbad
        | null => simp [loopStep, handleFrame, validateFrame, hdg]
        | bool b => simp [loopStep, handleFrame, validateFrame, hdg]
        | num n => simp [loopStep, handleFrame, validateFrame, hdg]
        | arr elems => simp [loopStep, handleFrame, validateFrame, hdg]
        | obj fs => simp [loopStep, handleFrame, validateFrame, hdg]
    | .parsed .null => simp [loopStep, handleFrame, validateFrame]
    | .parsed (.bool b) => simp [loopStep, handleFrame, validateFrame]
    | .parsed (.num n) => simp [loopStep, handleFrame, validateFrame]
    | .parsed (.str s) => simp [loopStep, handleFrame, validateFrame]
    | .parsed (.arr elems) => simp [loopStep, handleFrame, validateFrame]
  · intro fields hnone
    have hempty : pyStrip "" = "" := rfl
    simp [loopStep, handleFrame, validateFrame, hnone, stripCheck_empty hempty]

/-- Witness for C6 amended: applies the theorem to an unparseable frame, to
the array frame `[1]`, to an object whose `content` value is the number 3,
and to an object missing `content`, all at a concrete one-member state. -/
theorem malformed_frame_local_error_witness :
    (loopStep ⟨⟨[2]⟩, []⟩ "bob" (.frame .invalid "t" true (fun _ => true))
      = ⟨⟨⟨[2]⟩, []⟩, [.error "Invalid message format"], none, [], .Active⟩) ∧
    (loopStep ⟨⟨[2]⟩, []⟩ "bob" (.frame (.parsed (.arr [.num 1])) "t" true (fun _ => true))
      = ⟨⟨⟨[2]⟩, []⟩, [.error "Invalid message format"], none, [], .Active⟩) ∧
    (loopStep ⟨⟨[2]⟩, []⟩ "bob"
        (.frame (.parsed (.obj [("content", .num 3)])) "t" true (fun _ => true))
      = ⟨⟨⟨[2]⟩, []⟩, [.error "Invalid message format"], none, [], .Active⟩) ∧
    (loopStep ⟨⟨[2]⟩, []⟩ "bob"
        (.frame (.parsed (.obj [("user", .str "x")])) "t" true (fun _ => true))
      = ⟨⟨⟨[2]⟩, []⟩, [.error "Message cannot be empty"], none, [], .Active⟩) :=
  ⟨(malformed_frame_local_error ⟨⟨[2]⟩, []⟩ "bob" "t" true (fun _ => true)).1
      .invalid rfl,
   (malformed_frame_local_error ⟨⟨[2]⟩, []⟩ "bob" "t" true (fun _ => true)).1
      (.parsed (.arr [.num 1])) rfl,
   (malformed_frame_local_error ⟨⟨[2]⟩, []⟩ "bob" "t" true (fun _ => true)).1
      (.parsed (.obj [("content", .num 3)])) rfl,
   (malformed_frame_local_error ⟨⟨[2]⟩, []⟩ "bob" "t" true (fun _ => true)).2
      [("user", .str "x")] rfl⟩

/-- C7: a frame whose content is exactly 5000 characters (already free of
surrounding whitespace) is accepted: the handler appends exactly the row
`(username, content, timestamp)` to the message log, hands the event
`message(username, content, timestamp)` — the submitted content verbatim,
with the server-assigned timestamp of this iteration — to `broadcast`, sends
no error event, every member whose send succeeds receives that exact event,
and the connection stays Active. -/
theorem exact_5000_char_content_accepted (st : ServerState) (username : String)
    (fields : List (String × Json)) (s : String) (ts : String)
    (sendOk : Handle → Bool)
    (hfield : dictGet fields "content" = some (.str s))
    (htrim : pyStrip s = s) (hlen : s.length = 5000) :
    loopStep st username (.frame (.parsed (.obj fields)) ts true sendOk)
      = ⟨⟨(st.manager.broadcast sendOk (Event.message username s ts)).1,
          st.log ++ [⟨username, s, ts⟩]⟩,
         [], some (Event.message username s ts),
         (st.manager.broadcast sendOk (Event.message username s ts)).2, .Active⟩ ∧
    (∀ h ∈ st.manager.active_connections, sendOk h = true →
      (h, Event.message username s ts)
        ∈ (loopStep st username (.frame (.parsed (.obj fields)) ts true sendOk)).delivered) := by
  have hne : pyStrip s ≠ "" := by
    intro he
    rw [htrim] at he
    rw [he] at hlen
    simp at hlen
  have hle : (pyStrip s).length ≤ 5000 := by rw [htrim, hlen]
  have hok : validateFrame (.parsed (.obj fields)) = .ok s := by
    rw [validateFrame_obj_str hfield, stripCheck_ok hne hle, htrim]
  have hstep : loopStep st username (.frame (.parsed (.obj fields)) ts true sendOk)
      = ⟨⟨(st.manager.broadcast sendOk (Event.message username s ts)).1,
          st.log ++ [⟨username, s, ts⟩]⟩,
         [], some (Event.message username s ts),
         (st.manager.broadcast sendOk (Event.message username s ts)).2, .Active⟩ := by
    simp [loopStep, handleFrame, hok]
  refine ⟨hstep, ?_⟩
  intro h hmem hsend
  rw [hstep]
  exact mem_broadcast_delivered st.manager sendOk _ h hmem hsend

/-- Witness for C7: content of exactly 5000 letters at a concrete one-member
state; the row and the broadcast payload carry that content verbatim. -/
theorem exact_5000_char_content_accepted_witness :
    loopStep ⟨⟨[3]⟩, []⟩ "alice"
        (.frame (.parsed (.obj [("content", .str (onlyA 5000))])) "t" true (fun _ => true))
      = ⟨⟨(ConnectionManager.broadcast ⟨[3]⟩ (fun _ => true)
            (Event.message "alice" (onlyA 5000) "t")).1,
          [] ++ [⟨"alice", onlyA 5000, "t"⟩]⟩,
         [], some (Event.message "alice" (onlyA 5000) "t"),
         (ConnectionManager.broadcast ⟨[3]⟩ (fun _ => true)
            (Event.message "alice" (onlyA 5000) "t")).2, .Active⟩ :=
  (exact_5000_char_content_accepted ⟨⟨[3]⟩, []⟩ "alice"
    [("content", .str (onlyA 5000))] (onlyA 5000) "t" (fun _ => true) rfl
    (pyStrip_onlyA 5000) (length_onlyA 5000)).1

/-- C4: a connection attempt whose token is not a key of the session store is
closed with the policy-violation code 1008 before any protocol exchange: the
server state is untouched (in particular the handle is never added to the
membership list), no event of any kind is sent to the client, and nothing is
delivered to anyone. -/
theorem unknown_token_rejected (sessions : List (String × String))
    (st : ServerState) (token : String) (ws : Handle) (historyPushOk : Bool)
    (events : List InEvent)
    (hauth : dictGet sessions token = none) :
    websocket_endpoint sessions st token ws historyPushOk events
      = ⟨st, some 1008, [], []⟩ ∧
    (ws ∉ st.manager.active_connections →
      ws ∉ (websocket_endpoint sessions st token ws historyPushOk
              events).finalState.manager.active_connections) := by
  have h : websocket_endpoint sessions st token ws historyPushOk events
      = ⟨st, some 1008, [], []⟩ := by
    simp [websocket_endpoint, hauth]
  exact ⟨h, fun hws => by rw [h]; exact hws⟩

/-- Witness for C4 at a session store holding one token and a different
presented token. -/
theorem unknown_token_rejected_witness :
    websocket_endpoint [("tok-a", "alice")] ⟨⟨[1]⟩, []⟩ "tok-b" 9 true
        [.frame .invalid "t" true (fun _ => true)]
      = ⟨⟨⟨[1]⟩, []⟩, some 1008, [], []⟩ :=
  (unknown_token_rejected [("tok-a", "alice")] ⟨⟨[1]⟩, []⟩ "tok-b" 9 true
    [.frame .invalid "t" true (fun _ => true)] rfl).1

/-- C8: on admission with a known token, the first event pushed to the client
is the history event built by `get_last_messages` over the log at admission
time with the configured limit 50; and for every log and limit,
`get_last_messages` returns at most `limit` entries, returns exactly `limit`
entries whenever the log holds at least that many, and returns a suffix of
the insertion-ordered log — the most recent entries, oldest first. -/
theorem history_bounded_oldest_first (sessions : List (String × String))
    (st : ServerState) (token : String) (ws : Handle) (events : List InEvent)
    (username : String)
    (hauth : dictGet sessions token = some username) :
    (∃ rest, (websocket_endpoint sessions st token ws true events).selfEvents
        = Event.history (get_last_messages st.log 50) :: rest) ∧
    (∀ (log : List ChatMessage) (limit : Nat),
      (get_last_messages log limit).length ≤ limit ∧
      (limit ≤ log.length → (get_last_messages log limit).length = limit) ∧
      get_last_messages log limit <:+ log) := by
  constructor
  · refine ⟨(runLoop username ⟨st.manager.connect ws, st.log⟩ events).selfEvents, ?_⟩
    simp [websocket_endpoint, hauth]
  · intro log limit
    refine ⟨?_, ?_, ?_⟩
    · simp only [get_last_messages, List.length_reverse, List.length_take]
      omega
    · intro hge
      simp only [get_last_messages, List.length_reverse, List.length_take]
      omega
    · have h1 : (log.reverse.take limit) <+: log.reverse := List.take_prefix _ _
      have h2 : (log.reverse.take limit).reverse <:+ log.reverse.reverse :=
        List.reverse_suffix.mpr h1
      rw [List.reverse_reverse] at h2
      exact h2

/-- Witness for C8: a log of three messages and a known token; the endpoint
pushes the history event first, and the bounds hold at limit 2. -/
theorem history_bounded_oldest_first_witness :
    (∃ rest, (websocket_endpoint [("tok", "alice")]
        ⟨⟨[]⟩, [⟨"a", "m1", "1"⟩, ⟨"a", "m2", "2"⟩, ⟨"a", "m3", "3"⟩]⟩ "tok" 4 true
        []).selfEvents
      = Event.history (get_last_messages
          [⟨"a", "m1", "1"⟩, ⟨"a", "m2", "2"⟩, ⟨"a", "m3", "3"⟩] 50) :: rest) ∧
    ((get_last_messages [⟨"a", "m1", "1"⟩, ⟨"a", "m2", "2"⟩, ⟨"a", "m3", "3"⟩] 2).length ≤ 2 ∧
      (2 ≤ ([⟨"a", "m1", "1"⟩, ⟨"a", "m2", "2"⟩, ⟨"a", "m3", "3"⟩] : List ChatMessage).length →
        (get_last_messages [⟨"a", "m1", "1"⟩, ⟨"a", "m2", "2"⟩, ⟨"a", "m3", "3"⟩] 2).length = 2) ∧
      get_last_messages [⟨"a", "m1", "1"⟩, ⟨"a", "m2", "2"⟩, ⟨"a", "m3", "3"⟩] 2
        <:+ [⟨"a", "m1", "1"⟩, ⟨"a", "m2", "2"⟩, ⟨"a", "m3", "3"⟩]) :=
  ⟨(history_bounded_oldest_first [("tok", "alice")]
      ⟨⟨[]⟩, [⟨"a", "m1", "1"⟩, ⟨"a", "m2", "2"⟩, ⟨"a", "m3", "3"⟩]⟩ "tok" 4 []
      "alice" rfl).1,
   (history_bounded_oldest_first [("tok", "alice")]
      ⟨⟨[]⟩, [⟨"a", "m1", "1"⟩, ⟨"a", "m2", "2"⟩, ⟨"a", "m3", "3"⟩]⟩ "tok" 4 []
      "alice" rfl).2
      [⟨"a", "m1", "1"⟩, ⟨"a", "m2", "2"⟩, ⟨"a", "m3", "3"⟩] 2⟩

/-! ## Lemmas for the teardown invariant -/

/-- Every path through the frame handler continues the receive loop. -/
lemma handleFrame_next (st : ServerState) (username : String) (frame : Frame)
    (ts : String) (persistOk : Bool) (sendOk : Handle → Bool) :
    (handleFrame st username frame ts persistOk sendOk).next = .Active := by
  cases hv : validateFrame frame with
  | err d => simp [handleFrame, hv]
  | ok content =>
    cases hp : persistOk <;> simp [handleFrame, hv, hp]

/-- Handling one frame never adds occurrences to the membership list: the
only mutation it can perform is the eviction sweep of a broadcast. -/
lemma handleFrame_count_le (st : ServerState) (username : String) (frame : Frame)
    (ts : String) (persistOk : Bool) (sendOk : Handle → Bool) (h : Handle) :
    List.count h (handleFrame st username frame ts persistOk
        sendOk).state.manager.active_connections
      ≤ List.count h st.manager.active_connections := by
  cases hv : validateFrame frame with
  | err d => simp [handleFrame, hv]
  | ok content =>
    cases hp : persistOk
    · simp [handleFrame, hv, hp]
    · simp only [handleFrame, hv, hp, if_true]
      exact count_broadcast_le st.manager sendOk _ h

/-- Running the receive loop never adds occurrences to the membership list. -/
lemma runLoop_count_le (username : String) (h : Handle) (events : List InEvent)
    (st : ServerState) :
    List.count h (runLoop username st events).state.manager.active_connections
      ≤ List.count h st.manager.active_connections := by
  induction events generalizing st with
  | nil => simp [runLoop]
  | cons ev rest ih =>
    cases ev with
    | disconnect => simp [runLoop, loopStep]
    | recvError => simp [runLoop, loopStep]
    | frame f ts persistOk sendOk =>
      simp only [runLoop, loopStep]
      rw [handleFrame_next]
      exact Nat.le_trans (ih _) (handleFrame_count_le st username f ts persistOk sendOk h)

/-- Disconnecting a handle that occurs at most once leaves it absent. -/
lemma disconnect_not_mem_of_count_le_one (m : ConnectionManager) (ws : Handle)
    (h : List.count ws m.active_connections ≤ 1) :
    ws ∉ (m.disconnect ws).active_connections := by
  by_cases hm : ws ∈ m.active_connections
  · simp only [ConnectionManager.disconnect, hm, if_true]
    intro hmem
    have hpos : 0 < List.count ws (m.active_connections.erase ws) :=
      List.count_pos_iff.mpr hmem
    rw [List.count_erase_self] at hpos
    have h1 : 1 ≤ List.count ws m.active_connections := List.one_le_count_iff.mpr hm
    omega
  · simp [ConnectionManager.disconnect, hm]

/-- C9: every exit path of the websocket endpoint tears membership down.  For
every token (known or not), every history-push outcome, and every sequence of
received items — frames (valid, malformed, with failing persistence or
failing sends), a peer disconnect, or an unexpected receive error — a handle
that was not a member beforehand is not a member after the endpoint returns:
the `finally` removal runs on every path that admitted the handle, and the
rejection path never admits it. -/
theorem teardown_always_removes_handle (sessions : List (String × String))
    (st : ServerState) (token : String) (ws : Handle) (historyPushOk : Bool)
    (events : List InEvent)
    (hws : ws ∉ st.manager.active_connections) :
    ws ∉ (websocket_endpoint sessions st token ws historyPushOk
        events).finalState.manager.active_connections := by
  cases hdg : dictGet sessions token with
  | none => simpa [websocket_endpoint, hdg] using hws
  | some username =>
    simp only [websocket_endpoint, hdg]
    apply disconnect_not_mem_of_count_le_one
    have h0 : List.count ws st.manager.active_connections = 0 :=
      List.count_eq_zero.mpr hws
    have h1 : List.count ws (st.manager.connect ws).active_connections = 1 := by
      simp [ConnectionManager.connect, h0]
    calc List.count ws (runLoop username ⟨st.manager.connect ws, st.log⟩
            events).state.manager.active_connections
        ≤ List.count ws (st.manager.connect ws).active_connections :=
          runLoop_count_le username ws events ⟨st.manager.connect ws, st.log⟩
      _ = 1 := h1

/-- Witness for C9: a run that admits handle 5, processes one valid frame
(whose broadcast send to 5 itself fails) and one malformed frame, then sees a
peer disconnect; handle 5 is gone afterwards. -/
theorem teardown_always_removes_handle_witness :
    5 ∉ (websocket_endpoint [("tok", "alice")] ⟨⟨[8]⟩, []⟩ "tok" 5 true
        [.frame (.parsed (.obj [("content", .str "hi")])) "t1" true (fun c => c != 5),
         .frame .invalid "t2" true (fun _ => true),
         .disconnect]).finalState.manager.active_connections :=
  teardown_always_removes_handle [("tok", "alice")] ⟨⟨[8]⟩, []⟩ "tok" 5 true
    [.frame (.parsed (.obj [("content", .str "hi")])) "t1" true (fun c => c != 5),
     .frame .invalid "t2" true (fun _ => true),
     .disconnect] (by decide)
